import Mathlib

/-!
Verification of the medication-usage dashboard (`src/main.py`).

The program is a pandas/streamlit script: it loads a CSV with a `Date`
column and numeric medication columns, derives `Day`, `Month`, `Year` and
`Weekday Name` from the parsed date, filters rows by a year range, a month
multi-select and a day range, and renders a summary plus three analysis
tabs (time series, weekday means, descriptive statistics with a Pearson
correlation matrix).

Embedding conventions:
- a dataframe is a `List Row`; a `Row` holds the parsed `Date` as an
  `Option SimpleDate` (pandas `NaT` is `none`) and the medication columns
  positionally as `List (Option ℚ)` (pandas `NaN` is `none`);
- the derived columns `Day`/`Month`/`Year`/`Weekday Name` are functions of
  the stored date, `none` when the date is `none`, exactly as
  `df['Date'].dt.day` etc. propagate `NaT`;
- comparisons against a possibly-null column follow pandas semantics:
  any comparison or `isin` test on a null value is `false`;
- medication columns are referred to by their index in `Row.meds`;
- code that can raise (`strftime` on `NaT`, a multiselect default that is
  not among the options) returns `Except String`.
-/

/-- A calendar date as pandas exposes it through `dt.year/.month/.day`. -/
structure SimpleDate where
  year : Int
  month : Int
  day : Int
deriving DecidableEq, Repr

/-- The text of a `Date` CSV cell, abstracted to whether
`pd.to_datetime(..., errors='coerce')` can parse it (and, when it can, to
the date it denotes): the parser itself is library code outside the
repository. -/
inductive DateText where
  | valid (d : SimpleDate)
  | invalid
deriving DecidableEq, Repr

/-- One CSV record before `load_data` runs: the raw `Date` cell plus the
numeric medication cells (positionally; `none` is an empty/NaN cell). -/
structure RawRow where
  dateText : DateText
  meds : List (Option ℚ)
deriving DecidableEq

/-- One dataframe row after `load_data`: the parsed `Date`
(`pd.to_datetime(..., errors='coerce')`, so `none` for unparseable text)
and the medication columns. -/
structure Row where
  date : Option SimpleDate
  meds : List (Option ℚ)
deriving DecidableEq

/-- `df['Date'].dt.day` for one row: null when the date is null. -/
def Row.day (r : Row) : Option Int := r.date.map SimpleDate.day

/-- `df['Date'].dt.month` for one row. -/
def Row.month (r : Row) : Option Int := r.date.map SimpleDate.month

/-- `df['Date'].dt.year` for one row. -/
def Row.year (r : Row) : Option Int := r.date.map SimpleDate.year

/-- The seven values of `df['Date'].dt.day_name()`. -/
inductive Weekday where
  | monday | tuesday | wednesday | thursday | friday | saturday | sunday
deriving DecidableEq, Repr, Fintype

/-- Position of a weekday in the `weekday_order` list of `main.py` line 118
(Monday → Sunday). -/
def canonIdx : Weekday → Nat
  | .monday => 0 | .tuesday => 1 | .wednesday => 2 | .thursday => 3
  | .friday => 4 | .saturday => 5 | .sunday => 6

/-- Position of a weekday name in alphabetical order, the order in which
`groupby` (with its default `sort=True`) lists the group keys:
Friday, Monday, Saturday, Sunday, Thursday, Tuesday, Wednesday. -/
def alphaIdx : Weekday → Nat
  | .friday => 0 | .monday => 1 | .saturday => 2 | .sunday => 3
  | .thursday => 4 | .tuesday => 5 | .wednesday => 6

/-- The `weekday_order` list of `main.py` line 118. -/
def canonicalWeekdays : List Weekday :=
  [.monday, .tuesday, .wednesday, .thursday, .friday, .saturday, .sunday]

/-- The weekday names in alphabetical order (how `groupby` sorts its keys). -/
def alphaWeekdays : List Weekday :=
  [.friday, .monday, .saturday, .sunday, .thursday, .tuesday, .wednesday]

/-- Sakamoto's day-of-week formula, the calendar computation behind
`dt.day_name()`: 0 = Sunday, ..., 6 = Saturday. -/
def dayIdx (d : SimpleDate) : Int :=
  let t : List Int := [0, 3, 2, 5, 0, 3, 5, 1, 4, 6, 2, 4]
  let y := if d.month < 3 then d.year - 1 else d.year
  (y + y / 4 - y / 100 + y / 400 + t.getD (d.month.toNat - 1) 0 + d.day) % 7

/-- Convert Sakamoto's 0..6 (Sunday first) index to a `Weekday`. -/
def weekdayOfIdx : Int → Weekday
  | 0 => .sunday | 1 => .monday | 2 => .tuesday | 3 => .wednesday
  | 4 => .thursday | 5 => .friday | _ => .saturday

/-- `dt.day_name()` for one date. -/
def dayName (d : SimpleDate) : Weekday := weekdayOfIdx (dayIdx d)

/-- `df['Weekday Name']` for one row: null when the date is null. -/
def Row.weekday (r : Row) : Option Weekday := r.date.map dayName

/-- `pd.to_datetime(cell, errors='coerce')`: a parseable cell becomes its
date, an unparseable one becomes null (`NaT`); no exception is possible. -/
def parseDate : DateText → Option SimpleDate
  | .valid d => some d
  | .invalid => none

/-- One row of `load_data` (`main.py` lines 11-20): parse the date with
`errors='coerce'`; the derived columns are the functions above. -/
def loadRow (raw : RawRow) : Row :=
  { date := parseDate raw.dateText, meds := raw.meds }

/-- `load_data` (`main.py` lines 11-20) applied to the parsed CSV records. -/
def loadData (raws : List RawRow) : List Row := raws.map loadRow

/-- The filter parameters read from the sidebar (`main.py` lines 29-68):
selected medication column indices, the year-range slider, the month
multi-select and the day-range slider. -/
structure FilterParams where
  medications : List Nat
  yearLo : Int
  yearHi : Int
  months : List Int
  dayLo : Int
  dayHi : Int

/-- `series >= bound` on a possibly-null value: false on null (NaN). -/
def optGe (o : Option Int) (bound : Int) : Bool :=
  match o with
  | none => false
  | some v => decide (bound ≤ v)

/-- `series <= bound` on a possibly-null value: false on null (NaN). -/
def optLe (o : Option Int) (bound : Int) : Bool :=
  match o with
  | none => false
  | some v => decide (v ≤ bound)

/-- `series.isin(values)` on a possibly-null value: false on null (NaN). -/
def optIsin (o : Option Int) (values : List Int) : Bool :=
  match o with
  | none => false
  | some v => decide (v ∈ values)

/-- The boolean mask of `main.py` lines 71-77 for one row: the five ANDed
comparisons on `Year`, `Month` and `Day`. -/
def rowPass (p : FilterParams) (r : Row) : Bool :=
  optGe r.year p.yearLo && optLe r.year p.yearHi &&
    optIsin r.month p.months && optGe r.day p.dayLo && optLe r.day p.dayHi

/-- `filtered_df` (`main.py` lines 71-77): boolean-mask row selection. -/
def filteredDf (p : FilterParams) (df : List Row) : List Row :=
  df.filter (rowPass p)

/-- `p` with its medication selection replaced (the filter of lines 71-77
never looks at `selected_medications`). -/
def setMedications (p : FilterParams) (ms : List Nat) : FilterParams :=
  { p with medications := ms }

/-- `max_day` (`main.py` lines 53-61): 31 unless exactly one month is
selected, in which case 30 for April/June/September/November and a
hard-coded 28 for February. -/
def maxDay (selectedMonths : List Int) : Nat :=
  if selectedMonths.length = 1 then
    let month := selectedMonths.headD 0
    if month ∈ ([4, 6, 9, 11] : List Int) then 30
    else if month = 2 then 28
    else 31
  else 31

/-- `available_months` (`main.py` line 45): `sorted(df['Month'].unique())`,
the distinct month numbers of the rows whose date parsed, in increasing
order. -/
def availableMonths (df : List Row) : List Int :=
  List.insertionSort (fun a b => a ≤ b) (df.filterMap Row.month).dedup

/-- The error streamlit raises when a multiselect default is missing. -/
def multiselectErr : String := "Every Multiselect default value must exist in options"

/-- `st.multiselect(options, default)`: returns the default selection when
every default value is among the options, raises otherwise. -/
def multiselect (options : List Int) (dflt : List Int) : Except String (List Int) :=
  if dflt.all (fun d => decide (d ∈ options)) then Except.ok dflt
  else Except.error multiselectErr

/-- The month control (`main.py` lines 46-50): options are
`available_months`, the default is month 1. -/
def monthControl (df : List Row) : Except String (List Int) :=
  multiselect (availableMonths df) [1]

/-- The values of medication column `c` in one row (`none` when the row has
no such column, matching a NaN cell). -/
def colVal (r : Row) (c : Nat) : Option ℚ := (r.meds.getD c none : Option ℚ)

/-- The non-null values of medication column `c` over a list of rows, in
row order (what pandas aggregations with their default `skipna=True` see). -/
def colNonNull (rows : List Row) (c : Nat) : List ℚ :=
  rows.filterMap (fun r => colVal r c)

/-- Arithmetic mean of a list of rationals; NaN (here `none`) for the
empty list, exactly as pandas `mean` over zero non-null values. -/
def qMean (xs : List ℚ) : Option ℚ :=
  if xs.length = 0 then none else some (xs.sum / xs.length)

/-- The per-group mean pandas computes: mean of the non-null values of
column `c` over `rows`. -/
def colMean (rows : List Row) (c : Nat) : Option ℚ :=
  qMean (colNonNull rows c)

/-- The group keys of `filtered_df.groupby('Weekday Name')` (`main.py`
line 116): one key per weekday name present (null keys are dropped by
`groupby`), listed in the sorted — i.e. alphabetical — key order of
`groupby`'s default `sort=True`. -/
def weekdayGroups (rows : List Row) : List Weekday :=
  alphaWeekdays.filter (fun w => rows.any (fun r => decide (r.weekday = some w)))

/-- `weekday_df` (`main.py` lines 116-120): per-weekday means of the
selected columns, then reordered by the canonical Monday-to-Sunday order
via the ordered categorical and `sort_values`. -/
def weekdayDf (rows : List Row) (meds : List Nat) : List (Weekday × List (Option ℚ)) :=
  (List.insertionSort (fun a b => canonIdx a ≤ canonIdx b) (weekdayGroups rows)).map
    (fun w => (w, meds.map (fun c => colMean (rows.filter (fun r => decide (r.weekday = some w))) c)))

/-- One row of the `describe().T` table plus the appended `sum` column
(`main.py` lines 137-139). `stdSq` holds the square of the sample standard
deviation: the reported std is its (nonnegative) square root, left
unevaluated because it is irrational in general; in particular `stdSq` is
null exactly when the reported std is null, and zero exactly when it is
zero. -/
structure Stats where
  count : Nat
  mean : Option ℚ
  stdSq : Option ℚ
  min : Option ℚ
  q25 : Option ℚ
  median : Option ℚ
  q75 : Option ℚ
  max : Option ℚ
  sum : ℚ
deriving DecidableEq

/-- The `p`-quantile with numpy's default linear interpolation over the
sorted non-null values; `none` when there are none. -/
def percentile (xs : List ℚ) (p : ℚ) : Option ℚ :=
  let s := List.insertionSort (fun a b => a ≤ b) xs
  if s.length = 0 then none
  else
    let pos : ℚ := ((s.length : ℚ) - 1) * p
    let lo : Nat := (Int.toNat pos.floor)
    let hi : Nat := min (lo + 1) (s.length - 1)
    some (s.getD lo 0 + (pos - pos.floor) * (s.getD hi 0 - s.getD lo 0))

/-- `describe()` of one column together with its `sum` (`main.py` lines
137-139): count of non-null values, their mean, sample standard deviation
(via `stdSq`, null when fewer than two values), min, quartiles with linear
interpolation, max, and the column total (pandas `sum` of no non-null
values is 0). -/
def describeCol (vals : List (Option ℚ)) : Stats :=
  let v := vals.filterMap id
  let n := v.length
  { count := n
    mean := qMean v
    stdSq := if n < 2 then none
             else some (((v.map (fun x => (x - v.sum / n) ^ 2)).sum) / ((n : ℚ) - 1))
    min := v.min?
    q25 := percentile v (1 / 4)
    median := percentile v (1 / 2)
    q75 := percentile v (3 / 4)
    max := v.max?
    sum := v.sum }

/-- All the values of column `c` over `rows`, nulls included. -/
def colVals (rows : List Row) (c : Nat) : List (Option ℚ) :=
  rows.map (fun r => colVal r c)

/-- `stats_df` (`main.py` lines 137-140): one labelled statistics row per
selected medication column. -/
def statsDf (rows : List Row) (meds : List Nat) : List (Nat × Stats) :=
  meds.map (fun c => (c, describeCol (colVals rows c)))

/-- The rows where both columns are non-null, paired — the observations
pandas' `corr` uses for one cell of the Pearson matrix. -/
def pairNonNull (rows : List Row) (c₁ c₂ : Nat) : List (ℚ × ℚ) :=
  rows.filterMap (fun r =>
    (colVal r c₁).bind (fun a => (colVal r c₂).map (fun b => (a, b))))

/-- Mean of a list of rationals (0 for the empty list, never hit: callers
guard on emptiness). -/
def meanOf (xs : List ℚ) : ℚ := xs.sum / xs.length

/-- Centered sum of squares `Σ (x - mean)²` of a list. -/
def ssOf (xs : List ℚ) : ℚ := ((xs.map (fun x => (x - meanOf xs) ^ 2)).sum)

/-- Centered sum of products `Σ (x - mean x)(y - mean y)` over a list of
pairs. -/
def sProd (ps : List (ℚ × ℚ)) : ℚ :=
  ((ps.map (fun q =>
    (q.1 - meanOf (ps.map Prod.fst)) * (q.2 - meanOf (ps.map Prod.snd)))).sum)

/-- One cell of `filtered_df[selected_medications].corr()` (`main.py` line
145), encoded by the signed square `r · |r|` of the Pearson coefficient
`r = sProd / √(ssOf · ssOf)` — a rational that determines `r` uniquely
(`r = 1` iff the cell is `some 1`) and avoids the irrational square root.
The cell is `none` (pandas NaN) exactly when pandas' `nancorr` leaves it
NaN: no pairwise-complete observation, or a zero divisor (a column with
zero variance over the pairwise-complete rows). -/
def corrCell (rows : List Row) (c₁ c₂ : Nat) : Option ℚ :=
  if (pairNonNull rows c₁ c₂).length = 0 then none
  else if ssOf ((pairNonNull rows c₁ c₂).map Prod.fst) *
      ssOf ((pairNonNull rows c₁ c₂).map Prod.snd) = 0 then none
  else some (sProd (pairNonNull rows c₁ c₂) * |sProd (pairNonNull rows c₁ c₂)| /
    (ssOf ((pairNonNull rows c₁ c₂).map Prod.fst) *
      ssOf ((pairNonNull rows c₁ c₂).map Prod.snd)))

/-- `corr_matrix` (`main.py` line 145) as a square table of cells over the
selected columns. -/
def corrMatrix (rows : List Row) (meds : List Nat) : List (List (Option ℚ)) :=
  meds.map (fun c₁ => meds.map (fun c₂ => corrCell rows c₁ c₂))

/-- Entry `(i, j)` of a table of cells (`none` when out of range). -/
def matEntry (m : List (List (Option ℚ))) (i j : Nat) : Option (Option ℚ) :=
  m[i]?.bind (fun row => row[j]?)

/-- Two-digit zero padding, as `strftime('%m')`/`('%d')` produce. -/
def pad2 (n : Int) : String :=
  if n < 10 then "0" ++ toString n else toString n

/-- `date.strftime('%Y-%m-%d')` for a non-null date. -/
def fmtDate (d : SimpleDate) : String :=
  toString d.year ++ "-" ++ pad2 d.month ++ "-" ++ pad2 d.day

/-- The message of the `ValueError` pandas raises from `NaT.strftime`. -/
def natMsg : String := "NaTType does not support strftime"

/-- `strftime` on a possibly-NaT value: `filtered_df['Date'].min()` of an
empty frame is `NaT`, and `NaT.strftime(...)` raises a `ValueError`. -/
def strftimeOpt (o : Option SimpleDate) : Except String String :=
  match o with
  | none => Except.error natMsg
  | some d => Except.ok (fmtDate d)

/-- Chronological order on dates (what comparing pandas timestamps does). -/
def dateLe (a b : SimpleDate) : Bool :=
  decide (a.year < b.year) ||
    (decide (a.year = b.year) && (decide (a.month < b.month) ||
      (decide (a.month = b.month) && decide (a.day ≤ b.day))))

/-- `filtered_df['Date'].min()`: the least non-null date, `NaT` (`none`)
when there is none. -/
def dateMin (rows : List Row) : Option SimpleDate :=
  (rows.filterMap Row.date).foldl
    (fun acc d =>
      match acc with
      | none => some d
      | some a => some (if dateLe d a then d else a))
    none

/-- `filtered_df['Date'].max()`: the greatest non-null date, `NaT` when
there is none. -/
def dateMax (rows : List Row) : Option SimpleDate :=
  (rows.filterMap Row.date).foldl
    (fun acc d =>
      match acc with
      | none => some d
      | some a => some (if dateLe a d then d else a))
    none

/-- One rendered element of the page. The payloads keep the data each
widget is handed; chart styling is presentation and not modelled. -/
inductive Output where
  | warning (msg : String)
  | summaryText (dateRange : String) (totalRecords : Nat)
  | dataTable (rows : List Row)
  | lineChart (rows : List Row) (meds : List Nat)
  | barChart (groups : List (Weekday × List (Option ℚ)))
  | statsTable (stats : List (Nat × Stats))
  | heatmap (matrix : List (List (Option ℚ)))
deriving DecidableEq

/-- The warning of `main.py` line 83. -/
def selectWarning : String := "Please select at least one medication to analyze."

/-- The warning of `main.py` lines 111, 132 and 156. -/
def noDataWarning : String := "No data available for the selected filters."

/-- The main display (`main.py` lines 82-156): with no medication selected,
only the warning; otherwise the filtered-data summary (whose
`min()/max().strftime` raises on an empty subset), the data expander, and
the three tabs, each of which falls back to a warning on an empty subset. -/
def render (df : List Row) (p : FilterParams) : Except String (List Output) :=
  if p.medications.isEmpty then
    Except.ok [Output.warning selectWarning]
  else
    let fd := filteredDf p df
    do
      let lo ← strftimeOpt (dateMin fd)
      let hi ← strftimeOpt (dateMax fd)
      let summary := [Output.summaryText (lo ++ " to " ++ hi) fd.length, Output.dataTable fd]
      let tab1 := if fd.isEmpty then [Output.warning noDataWarning]
                  else [Output.lineChart fd p.medications]
      let tab2 := if fd.isEmpty then [Output.warning noDataWarning]
                  else [Output.barChart (weekdayDf fd p.medications)]
      let tab3 := if fd.isEmpty then [Output.warning noDataWarning]
                  else [Output.statsTable (statsDf fd p.medications),
                        Output.heatmap (corrMatrix fd p.medications)]
      Except.ok (summary ++ tab1 ++ tab2 ++ tab3)

/-- Monday-to-Sunday order as a relation on weekdays (the order
`sort_values` uses once `Weekday Name` is the ordered categorical). -/
instance : IsTotal Weekday (fun a b => canonIdx a ≤ canonIdx b) :=
  ⟨fun a b => Nat.le_total (canonIdx a) (canonIdx b)⟩

instance : IsTrans Weekday (fun a b => canonIdx a ≤ canonIdx b) :=
  ⟨fun _ _ _ h₁ h₂ => le_trans h₁ h₂⟩

instance : IsAntisymm Weekday (fun a b => canonIdx a ≤ canonIdx b) :=
  ⟨by decide⟩

/-- Sample dataset: one row, dated 2023-01-05, one medication column. -/
def dfJan : List Row := [{ date := some ⟨2023, 1, 5⟩, meds := [some 2] }]

/-- Filter parameters that match nothing in `dfJan` (year 2024) while one
medication is selected. -/
def pNoMatch : FilterParams :=
  { medications := [0], yearLo := 2024, yearHi := 2024, months := [1], dayLo := 1, dayHi := 31 }

/-- Filter parameters with an empty medication selection. -/
def pNoMeds : FilterParams :=
  { medications := [], yearLo := 2023, yearHi := 2023, months := [1], dayLo := 1, dayHi := 31 }

/-- Sample dataset whose only row is dated in March (no January rows). -/
def dfMarch : List Row := [{ date := some ⟨2023, 3, 15⟩, meds := [some 5] }]

/-- Sample dataset with a single row (its one medication column is
constant over the one pairwise-complete observation). -/
def dfSingle : List Row := [{ date := some ⟨2023, 1, 5⟩, meds := [some 5] }]

/-- Sample dataset: 2023-01-02 (a Monday) with value 3 and 2023-01-06
(a Friday) with value 5 in the one medication column. -/
def dfMonFri : List Row :=
  [{ date := some ⟨2023, 1, 2⟩, meds := [some 3] },
   { date := some ⟨2023, 1, 6⟩, meds := [some 5] }]

/-- Filter parameters selecting all of January 2023. -/
def pJan : FilterParams :=
  { medications := [0], yearLo := 2023, yearHi := 2023, months := [1], dayLo := 1, dayHi := 31 }

/-- The boolean mask of lines 71-77 holds exactly when the row's `Year`,
`Month` and `Day` exist (non-null) and satisfy the three predicates. -/
theorem rowPass_iff (p : FilterParams) (r : Row) :
    rowPass p r = true ↔
      (∃ y, r.year = some y ∧ p.yearLo ≤ y ∧ y ≤ p.yearHi) ∧
      (∃ m, r.month = some m ∧ m ∈ p.months) ∧
      (∃ d, r.day = some d ∧ p.dayLo ≤ d ∧ d ≤ p.dayHi) := by
  rcases r with ⟨date, meds⟩
  cases date with
  | none => simp [rowPass, optGe, optLe, optIsin, Row.year, Row.month, Row.day]
  | some d =>
    simp [rowPass, optGe, optLe, optIsin, Row.year, Row.month, Row.day, and_assoc]

/-- C1: the filter engine returns exactly the rows of the loaded dataset
whose `Year` lies in the inclusive year range AND whose `Month` is in the
selected month set AND whose `Day` lies in the inclusive day range; the
medication selection has no effect on which rows are included. -/
theorem filteredDf_mem_iff_and_ignores_medications (p : FilterParams) (df : List Row) :
    (∀ r : Row, r ∈ filteredDf p df ↔
      r ∈ df ∧
      ((∃ y, r.year = some y ∧ p.yearLo ≤ y ∧ y ≤ p.yearHi) ∧
       (∃ m, r.month = some m ∧ m ∈ p.months) ∧
       (∃ d, r.day = some d ∧ p.dayLo ≤ d ∧ d ≤ p.dayHi))) ∧
    (∀ ms : List Nat, filteredDf (setMedications p ms) df = filteredDf p df) := by
  constructor
  · intro r
    rw [filteredDf, List.mem_filter, rowPass_iff]
  · intro ms
    rfl

/-- C10: the filtered subset is an order-preserving sub-sequence of the
loaded dataset — each output row is a source row kept verbatim, in source
order, and no row occurs more often than in the source. -/
theorem filteredDf_sublist_count (p : FilterParams) (df : List Row) :
    (filteredDf p df).Sublist df ∧ ∀ r : Row, (filteredDf p df).count r ≤ df.count r :=
  ⟨List.filter_sublist df, fun r => (List.filter_sublist df).count_le r⟩

/-- C3: the day-range cap is 30 when exactly one of 4, 6, 9, 11 is
selected, a hard-coded 28 (never 29) when exactly month 2 is selected, and
31 in every other case. -/
theorem maxDay_cases (ms : List Int) :
    maxDay ms =
      if ms.length = 1 ∧ ms.headD 0 ∈ ([4, 6, 9, 11] : List Int) then 30
      else if ms.length = 1 ∧ ms.headD 0 = 2 then 28
      else 31 := by
  by_cases h : ms.length = 1 <;> simp [maxDay, h]

/-- C9: with an empty medication selection the dashboard renders only the
"select at least one medication" warning — no summary, charts, statistics
or correlations — and raises nothing, for any dataset and filters. -/
theorem render_empty_medications (df : List Row) (p : FilterParams)
    (h : p.medications = []) :
    render df p = Except.ok [Output.warning selectWarning] := by
  unfold render
  rw [h]
  rfl

/-- C9 witness: the theorem applied to a concrete dataset and parameters. -/
theorem render_empty_medications_witness :
    render dfJan pNoMeds = Except.ok [Output.warning selectWarning] :=
  render_empty_medications dfJan pNoMeds rfl

/-- C2: with one medication selected and filter parameters matching no
row, the filtered subset is empty and the summary block's
`min().strftime(...)` raises the `NaT` `ValueError` before any of the
three tabs can report "no data". -/
theorem render_crashes_on_empty_filter :
    filteredDf pNoMatch dfJan = [] ∧
      pNoMatch.medications = [0] ∧
      render dfJan pNoMatch = Except.error natMsg :=
  ⟨rfl, rfl, rfl⟩

/-- C8: date parsing never raises — an unparseable `Date` becomes a null
date with null `Day`/`Month`/`Year`/`Weekday Name` — and, for every choice
of filter parameters, rows of the filtered subset always have a parsed
date, so coerced records are excluded. -/
theorem load_nulls_are_excluded (raws : List RawRow) (p : FilterParams) :
    (∀ r ∈ filteredDf p (loadData raws), r.date.isSome) ∧
    (∀ ms : List (Option ℚ),
      (loadRow ⟨DateText.invalid, ms⟩).date = none ∧
      (loadRow ⟨DateText.invalid, ms⟩).day = none ∧
      (loadRow ⟨DateText.invalid, ms⟩).month = none ∧
      (loadRow ⟨DateText.invalid, ms⟩).year = none ∧
      (loadRow ⟨DateText.invalid, ms⟩).weekday = none) ∧
    (∀ ms : List (Option ℚ), loadRow ⟨DateText.invalid, ms⟩ ∉ filteredDf p (loadData raws)) := by
  have hmem : ∀ r ∈ filteredDf p (loadData raws), r.date.isSome := by
    intro r hr
    have h := (List.mem_filter.mp hr).2
    rcases r with ⟨date, meds⟩
    cases date with
    | none => simp [rowPass, optGe, Row.year] at h
    | some d => rfl
  refine ⟨hmem, fun ms => ⟨rfl, rfl, rfl, rfl, rfl⟩, fun ms hin => ?_⟩
  have h := hmem _ hin
  simp [loadRow, parseDate] at h

/-- C4 counterexample: on a dataset whose only month is March, the month
control's options are `[3]` — not the integers 1 through 12 — and the
default selection of month 1 makes the control raise instead of showing
empty results. -/
theorem monthControl_dfMarch_fails :
    availableMonths dfMarch = [3] ∧
      availableMonths dfMarch ≠ [1, 2, 3, 4, 5, 6, 7, 8, 9, 10, 11, 12] ∧
      monthControl dfMarch = Except.error multiselectErr :=
  ⟨rfl, by decide, rfl⟩

/-- C4 amended: the month control offers the sorted distinct months
present in the dataset (not always 1-12); the default interaction yields
selection `[1]` exactly when the dataset has a January row, and raises the
multiselect default error otherwise. -/
theorem monthControl_options_and_default (df : List Row) :
    (availableMonths df).Sorted (fun a b => a ≤ b) ∧
    (∀ m : Int, m ∈ availableMonths df ↔ ∃ r, r ∈ df ∧ r.month = some m) ∧
    (monthControl df = Except.ok [1] ↔ (1 : Int) ∈ availableMonths df) ∧
    ((1 : Int) ∉ availableMonths df → monthControl df = Except.error multiselectErr) := by
  refine ⟨List.sorted_insertionSort _ _, ?_, ?_, ?_⟩
  · intro m
    unfold availableMonths
    rw [(List.perm_insertionSort _ _).mem_iff, List.mem_dedup, List.mem_filterMap]
  · unfold monthControl multiselect
    by_cases h : (1 : Int) ∈ availableMonths df <;> simp [h]
  · intro h
    unfold monthControl multiselect
    simp [h]

/-- Keeping the non-null results of an extractor yields as many elements
as there are rows where the extractor is non-null. -/
theorem length_filterMap_eq_length_filter (l : List Row) (g : Row → Option ℚ) :
    (l.filterMap g).length = (l.filter (fun r => (g r).isSome)).length := by
  induction l with
  | nil => rfl
  | cons a t ih =>
    cases h : g a <;> simp [List.filterMap_cons, List.filter_cons, h, ih]

/-- Dropping the nulls of a whole extracted column is extracting the
non-null values row by row. -/
theorem colVals_filterMap_id (rows : List Row) (c : Nat) :
    (colVals rows c).filterMap id = rows.filterMap (fun r => colVal r c) := by
  unfold colVals
  rw [List.filterMap_map]
  rfl

/-- The reported std is null exactly when the column has fewer than two
non-null values. -/
theorem describeCol_stdSq_none_iff (vals : List (Option ℚ)) :
    (describeCol vals).stdSq = none ↔ (describeCol vals).count < 2 := by
  unfold describeCol
  by_cases h : (vals.filterMap id).length < 2 <;> simp [h]

/-- C6: each selected column's statistics row is present in `stats_df`
with count equal to the number of non-null values of the column in the
subset, sum equal to their arithmetic total, and a standard deviation that
is null (rather than zero or an error) exactly when the count is below
two. -/
theorem statsDf_count_sum_std (rows : List Row) (meds : List Nat) (c : Nat)
    (hrows : rows ≠ []) (hc : c ∈ meds) :
    (c, describeCol (colVals rows c)) ∈ statsDf rows meds ∧
    (describeCol (colVals rows c)).count =
      (rows.filter (fun r => (colVal r c).isSome)).length ∧
    (describeCol (colVals rows c)).sum =
      (rows.filterMap (fun r => colVal r c)).sum ∧
    ((describeCol (colVals rows c)).stdSq = none ↔
      (describeCol (colVals rows c)).count < 2) := by
  refine ⟨List.mem_map.mpr ⟨c, hc, rfl⟩, ?_, ?_, describeCol_stdSq_none_iff _⟩
  · show ((colVals rows c).filterMap id).length = _
    rw [colVals_filterMap_id, length_filterMap_eq_length_filter]
  · show ((colVals rows c).filterMap id).sum = _
    rw [colVals_filterMap_id]

/-- C6 witness: the count, sum and std-nullness facts at a concrete
two-row dataset with one selected column. -/
theorem statsDf_count_sum_std_witness :
    (describeCol (colVals dfMonFri 0)).count =
      (dfMonFri.filter (fun r => (colVal r 0).isSome)).length ∧
    (describeCol (colVals dfMonFri 0)).sum =
      (dfMonFri.filterMap (fun r => colVal r 0)).sum ∧
    ((describeCol (colVals dfMonFri 0)).stdSq = none ↔
      (describeCol (colVals dfMonFri 0)).count < 2) :=
  (statsDf_count_sum_std dfMonFri [0] 0 (by simp [dfMonFri]) (by simp)).2

/-- `alphaWeekdays` and `canonicalWeekdays` list the same seven values. -/
theorem alpha_perm_canonical : List.Perm alphaWeekdays canonicalWeekdays := by decide

/-- The canonical weekday list is sorted by canonical position. -/
theorem canonical_sorted :
    List.Sorted (fun a b => canonIdx a ≤ canonIdx b) canonicalWeekdays := by decide

/-- Re-sorting the (alphabetically listed) present weekday groups by
canonical position yields the canonical list restricted to the present
weekdays. -/
theorem insertionSort_weekday_filter (q : Weekday → Bool) :
    List.insertionSort (fun a b => canonIdx a ≤ canonIdx b) (alphaWeekdays.filter q) =
      canonicalWeekdays.filter q :=
  List.eq_of_perm_of_sorted
    ((List.perm_insertionSort _ _).trans (alpha_perm_canonical.filter q))
    (List.sorted_insertionSort _ _)
    (List.Pairwise.filter q canonical_sorted)

/-- `any` is invariant under permutation of the list. -/
theorem perm_any {α : Type} (f : α → Bool) {l₁ l₂ : List α} (h : List.Perm l₁ l₂) :
    l₁.any f = l₂.any f := by
  induction h with
  | nil => rfl
  | cons x _ ih => simp [List.any_cons, ih]
  | swap x y l => simp [List.any_cons, Bool.or_left_comm]
  | trans _ _ ih₁ ih₂ => rw [ih₁, ih₂]

/-- The column mean only depends on the rows as a multiset. -/
theorem colMean_perm {l₁ l₂ : List Row} (h : List.Perm l₁ l₂) (c : Nat) :
    colMean l₁ c = colMean l₂ c := by
  unfold colMean qMean colNonNull
  rw [(h.filterMap _).length_eq, (h.filterMap _).sum_eq]

/-- The weekday aggregation only depends on the rows as a multiset: input
row order never changes it. -/
theorem weekdayDf_perm {l₁ l₂ : List Row} (h : List.Perm l₁ l₂) (meds : List Nat) :
    weekdayDf l₁ meds = weekdayDf l₂ meds := by
  unfold weekdayDf weekdayGroups
  have hg : (alphaWeekdays.filter fun w => l₁.any fun r => decide (r.weekday = some w)) =
      alphaWeekdays.filter fun w => l₂.any fun r => decide (r.weekday = some w) :=
    List.filter_congr (fun w _ => perm_any _ h)
  rw [hg]
  apply List.map_congr_left
  intro w _
  have hp : List.Perm (l₁.filter fun r => decide (r.weekday = some w))
      (l₂.filter fun r => decide (r.weekday = some w)) := h.filter _
  exact Prod.ext rfl (List.map_congr_left fun c _ => colMean_perm hp c)

/-- C5: for a non-empty subset and non-empty medication selection, the
weekday aggregation has exactly one row per weekday present in the subset
(missing weekdays are absent), in canonical Monday-to-Sunday order, whose
values are the per-group means of each selected column; and the result is
unchanged under any reordering of the input rows. -/
theorem weekdayDf_canonical (rows : List Row) (meds : List Nat)
    (hrows : rows ≠ []) (hmeds : meds ≠ []) :
    weekdayDf rows meds =
      (canonicalWeekdays.filter fun w => rows.any fun r => decide (r.weekday = some w)).map
        (fun w => (w, meds.map fun c =>
          colMean (rows.filter fun r => decide (r.weekday = some w)) c)) ∧
    ∀ rows₂ : List Row, List.Perm rows₂ rows → weekdayDf rows₂ meds = weekdayDf rows meds := by
  refine ⟨?_, fun rows₂ h => weekdayDf_perm h meds⟩
  unfold weekdayDf weekdayGroups
  rw [insertionSort_weekday_filter]

/-- C5 witness: the aggregation evaluated on a concrete two-row dataset
(a Monday row with value 3, a Friday row with value 5). -/
theorem weekdayDf_canonical_witness :
    weekdayDf dfMonFri [0] = [(Weekday.monday, [some 3]), (Weekday.friday, [some 5])] := by
  refine ((weekdayDf_canonical dfMonFri [0] (by simp [dfMonFri]) (by simp)).1).trans ?_
  have hfilter : (canonicalWeekdays.filter fun w =>
      dfMonFri.any fun r => decide (r.weekday = some w)) =
      [Weekday.monday, Weekday.friday] := by decide
  have h1 : (dfMonFri.filter fun r => decide (r.weekday = some Weekday.monday)) =
      [{ date := some ⟨2023, 1, 2⟩, meds := [some 3] }] := by decide
  have h2 : (dfMonFri.filter fun r => decide (r.weekday = some Weekday.friday)) =
      [{ date := some ⟨2023, 1, 6⟩, meds := [some 5] }] := by decide
  rw [hfilter]
  simp only [List.map_cons, List.map_nil, h1, h2]
  norm_num [colMean, qMean, colNonNull, colVal, List.filterMap_cons, List.getD_cons_zero]

/-- Swapping the column pair swaps the paired observations. -/
theorem pairNonNull_swap (rows : List Row) (c₁ c₂ : Nat) :
    pairNonNull rows c₂ c₁ = (pairNonNull rows c₁ c₂).map Prod.swap := by
  induction rows with
  | nil => rfl
  | cons r t ih =>
    unfold pairNonNull at ih ⊢
    cases h₁ : colVal r c₁ <;> cases h₂ : colVal r c₂ <;>
      simp [List.filterMap_cons, h₁, h₂, ih]

/-- Pairing a column with itself pairs each non-null value with itself. -/
theorem pairNonNull_diag (rows : List Row) (c : Nat) :
    pairNonNull rows c c = (colNonNull rows c).map (fun x => (x, x)) := by
  induction rows with
  | nil => rfl
  | cons r t ih =>
    unfold pairNonNull colNonNull at ih ⊢
    cases h : colVal r c <;> simp [List.filterMap_cons, h, ih]

/-- First components of the swapped pairs are the second components. -/
theorem map_fst_swap (ps : List (ℚ × ℚ)) :
    (ps.map Prod.swap).map Prod.fst = ps.map Prod.snd := by
  rw [List.map_map]; rfl

/-- Second components of the swapped pairs are the first components. -/
theorem map_snd_swap (ps : List (ℚ × ℚ)) :
    (ps.map Prod.swap).map Prod.snd = ps.map Prod.fst := by
  rw [List.map_map]; rfl

/-- First components of the self-paired values are the values. -/
theorem map_fst_diag (xs : List ℚ) :
    (xs.map (fun x => (x, x))).map Prod.fst = xs := by
  rw [List.map_map]; exact List.map_id xs

/-- Second components of the self-paired values are the values. -/
theorem map_snd_diag (xs : List ℚ) :
    (xs.map (fun x => (x, x))).map Prod.snd = xs := by
  rw [List.map_map]; exact List.map_id xs

/-- The centered sum of products is symmetric in the two coordinates. -/
theorem sProd_swap (ps : List (ℚ × ℚ)) : sProd (ps.map Prod.swap) = sProd ps := by
  unfold sProd
  rw [map_fst_swap, map_snd_swap, List.map_map]
  congr 1
  apply List.map_congr_left
  intro a _
  exact mul_comm _ _

/-- On the diagonal the centered sum of products is the centered sum of
squares. -/
theorem sProd_diag (xs : List ℚ) : sProd (xs.map (fun x => (x, x))) = ssOf xs := by
  unfold sProd ssOf
  rw [map_fst_diag, map_snd_diag, List.map_map]
  congr 1
  apply List.map_congr_left
  intro a _
  rw [sq]
  rfl

/-- A centered sum of squares is nonnegative. -/
theorem ssOf_nonneg (xs : List ℚ) : 0 ≤ ssOf xs := by
  unfold ssOf
  apply List.sum_nonneg
  intro x hx
  rcases List.mem_map.mp hx with ⟨y, _, rfl⟩
  exact sq_nonneg _

/-- A list with a nonzero centered sum of squares is non-empty. -/
theorem ssOf_ne_zero_length {xs : List ℚ} (h : ssOf xs ≠ 0) : xs.length ≠ 0 := by
  intro hl
  rw [List.length_eq_zero] at hl
  subst hl
  exact h rfl

/-- Each cell of the Pearson matrix is symmetric in its two columns. -/
theorem corrCell_symm (rows : List Row) (c₁ c₂ : Nat) :
    corrCell rows c₁ c₂ = corrCell rows c₂ c₁ := by
  unfold corrCell
  rw [pairNonNull_swap rows c₁ c₂, List.length_map, map_fst_swap, map_snd_swap, sProd_swap,
    mul_comm (ssOf ((pairNonNull rows c₁ c₂).map Prod.snd))
      (ssOf ((pairNonNull rows c₁ c₂).map Prod.fst))]

/-- A diagonal cell over a column with nonzero variance is exactly 1. -/
theorem corrCell_diag_of_ne (rows : List Row) (c : Nat)
    (h : ssOf (colNonNull rows c) ≠ 0) :
    corrCell rows c c = some 1 := by
  unfold corrCell
  rw [pairNonNull_diag, map_fst_diag, map_snd_diag, sProd_diag, List.length_map]
  rw [if_neg (ssOf_ne_zero_length h), if_neg (fun hz => h (mul_self_eq_zero.mp hz))]
  rw [abs_of_nonneg (ssOf_nonneg _), div_self (mul_ne_zero h h)]

/-- A diagonal cell over a column with zero variance (or no observation)
is NaN. -/
theorem corrCell_diag_of_eq (rows : List Row) (c : Nat)
    (h : ssOf (colNonNull rows c) = 0) :
    corrCell rows c c = none := by
  unfold corrCell
  rw [pairNonNull_diag, map_fst_diag, map_snd_diag, List.length_map]
  by_cases hl : (colNonNull rows c).length = 0
  · rw [if_pos hl]
  · rw [if_neg hl, if_pos (by rw [h, mul_zero])]

/-- An entry of the correlation matrix, by column lookup. -/
theorem matEntry_corrMatrix (rows : List Row) (meds : List Nat) (i j : Nat) :
    matEntry (corrMatrix rows meds) i j =
      meds[i]?.bind (fun a => meds[j]?.map fun b => corrCell rows a b) := by
  unfold matEntry corrMatrix
  rw [List.getElem?_map]
  cases h : meds[i]? <;> simp [h, List.getElem?_map]

/-- C7 (amended): the correlation computer is symmetric cell-wise and as a
matrix; a diagonal cell is exactly 1 when its column has nonzero variance
over the pairwise-complete observations and NaN (`none`) when the variance
is zero — never 0 — and a single selected column yields the 1×1 matrix
`[[1]]` exactly in the nonzero-variance case. -/
theorem corrMatrix_pearson_spec (rows : List Row) (meds : List Nat) :
    (∀ c₁ c₂ : Nat, corrCell rows c₁ c₂ = corrCell rows c₂ c₁) ∧
    (∀ i j : Nat, matEntry (corrMatrix rows meds) i j = matEntry (corrMatrix rows meds) j i) ∧
    (∀ c : Nat, ssOf (colNonNull rows c) ≠ 0 → corrCell rows c c = some 1) ∧
    (∀ c : Nat, ssOf (colNonNull rows c) = 0 → corrCell rows c c = none) ∧
    (∀ c : Nat, ssOf (colNonNull rows c) ≠ 0 → corrMatrix rows [c] = [[some 1]]) := by
  refine ⟨fun c₁ c₂ => corrCell_symm rows c₁ c₂, fun i j => ?_,
    fun c h => corrCell_diag_of_ne rows c h,
    fun c h => corrCell_diag_of_eq rows c h,
    fun c h => ?_⟩
  · rw [matEntry_corrMatrix, matEntry_corrMatrix]
    cases h₁ : meds[i]? <;> cases h₂ : meds[j]? <;> simp [h₁, h₂, corrCell_symm rows]
  · show [[corrCell rows c c]] = [[some 1]]
    rw [corrCell_diag_of_ne rows c h]

/-- C7 counterexample: on a one-row dataset with one selected column the
1×1 correlation matrix is `[[NaN]]`, not `[[1.0]]`. -/
theorem corrMatrix_single_counterexample :
    corrMatrix dfSingle [0] = [[(none : Option ℚ)]] ∧
      corrMatrix dfSingle [0] ≠ [[some (1 : ℚ)]] := by
  have hss : ssOf (colNonNull dfSingle 0) = 0 := by
    norm_num [ssOf, meanOf, colNonNull, colVal, dfSingle, List.filterMap_cons]
  have hmat : corrMatrix dfSingle [0] = [[(none : Option ℚ)]] := by
    show [[corrCell dfSingle 0 0]] = _
    rw [corrCell_diag_of_eq dfSingle 0 hss]
  exact ⟨hmat, by rw [hmat]; simp⟩
